import Mathlib

/-!
Shallow embedding of the `build-timing` crate (src/build.rs, src/env.rs,
src/err.rs, src/date_time.rs) and proofs about its specified behaviour.

External effects are made explicit:
  * `println!("cargo:...")` lines become elements of a returned `List Trigger`;
  * `is_debug()` (crate `is_debug`) becomes a `Bool` parameter;
  * `std::env::consts::OS` / `ARCH` become `String` parameters;
  * `std::env::var("OUT_DIR").ok()` becomes an `Option String` parameter;
  * a Rust `panic!` becomes the `Except.error` branch of an `Except` result.
-/

namespace BuildTiming

/-- Identifier of a build constant: `pub struct BuildTimingConst(&'static str)`
in src/env.rs.  The wrapped `&'static str` is modelled as a `String`. -/
structure BuildTimingConst where
  name : String
deriving DecidableEq, Repr

/-- Constant `BUILD_OS: BuildTimingConst = BuildTimingConst("BUILD_OS")` of src/env.rs. -/
def BUILD_OS : BuildTimingConst := ⟨"BUILD_OS"⟩

/-- Method `ToString::to_string` for `BuildTimingConst` (src/env.rs): returns the
wrapped name. -/
def BuildTimingConst.toStr (c : BuildTimingConst) : String := c.name

/-- Supported types of build constants (`ConstType` in src/build.rs). -/
inductive ConstType where
  | Str
  | Bool
  | Slice
  | Usize
deriving DecidableEq, Repr

/-- Serialized value of a build constant (`ConstVal` in src/build.rs). -/
structure ConstVal where
  desc : String
  v : String
  t : ConstType
deriving DecidableEq, Repr

/-- Constructor `ConstVal::new` (src/build.rs): empty string value, type `Str`. -/
def ConstVal.new (desc : String) : ConstVal :=
  { desc := desc, v := "", t := ConstType.Str }

/-- Constructor `ConstVal::new_bool` (src/build.rs): value `"true"`, type `Bool`. -/
def ConstVal.new_bool (desc : String) : ConstVal :=
  { desc := desc, v := "true", t := ConstType.Bool }

/-- Constructor `ConstVal::new_slice` (src/build.rs): empty string value, type `Slice`. -/
def ConstVal.new_slice (desc : String) : ConstVal :=
  { desc := desc, v := "", t := ConstType.Slice }

/-- Documentation string `BUILD_OS_DOC` of src/env.rs (its exact text is irrelevant
to the claims; what matters is that `build_val` returns it verbatim as `desc`). -/
def BUILD_OS_DOC : String :=
  "\nOperating system and architecture on which the project was build."

/-- Method `BuildConstVal::build_val` for `BuildTimingConst` (src/env.rs lines 30-41).
The match arm `&BUILD_OS => ...` matches any identifier structurally equal to
`BUILD_OS`; the fallthrough arm is `panic!("Unknown build constant: {}", ...)`,
modelled as `Except.error` carrying the panic message.  `os` and `arch` stand for
`std::env::consts::OS` and `std::env::consts::ARCH`. -/
def BuildTimingConst.build_val (c : BuildTimingConst) (os arch : String) :
    Except String ConstVal :=
  if c = BUILD_OS then
    Except.ok { desc := BUILD_OS_DOC, v := os ++ "-" ++ arch, t := ConstType.Str }
  else
    Except.error ("Unknown build constant: " ++ c.toStr)

/-- One `cargo:` line printed by `BuildPattern::rerun_if` (src/build.rs):
either `cargo:rerun-if-env-changed={key}` or `cargo:rerun-if-changed={path}`. -/
inductive Trigger where
  | rerunIfEnvChanged (key : String)
  | rerunIfChanged (path : String)
deriving DecidableEq, Repr

/-- Constant `DEFINE_SOURCE_DATE_EPOCH` of src/date_time.rs. -/
def DEFINE_SOURCE_DATE_EPOCH : String := "SOURCE_DATE_EPOCH"

/-- Constant `DEFINE_BUILD_TIMING_RS` (declared in the crate's build_timing module;
its value is the fixed generated-file name `build_timing.rs`, as used by the
`build_timing!` macro in src/lib.rs: `concat!(env!("OUT_DIR"), "/build_timing.rs")`). -/
def DEFINE_BUILD_TIMING_RS : String := "build_timing.rs"

/-- Rebuild strategies (`BuildPattern` in src/build.rs).  Default is `Lazy`. -/
inductive BuildPattern where
  | Lazy
  | RealTime
  | Custom (if_path_changed : List String) (if_env_changed : List String)
deriving DecidableEq, Repr

/-- Default `BuildPattern` (the `#[default]` attribute sits on `Lazy`). -/
def BuildPattern.default : BuildPattern := BuildPattern.Lazy

/-- Lines 243-245 of src/build.rs: the triggers printed after the `match`,
reached by every pattern that does not return early — one
`rerun-if-env-changed` per element of `other_keys`, one for
`SOURCE_DATE_EPOCH`, and one `rerun-if-changed` for the generated file. -/
def rerunIfTail (other_keys : List BuildTimingConst) (out_dir : String) : List Trigger :=
  other_keys.map (fun key => Trigger.rerunIfEnvChanged key.toStr) ++
    [Trigger.rerunIfEnvChanged DEFINE_SOURCE_DATE_EPOCH,
     Trigger.rerunIfChanged (out_dir ++ "/" ++ DEFINE_BUILD_TIMING_RS)]

/-- Method `BuildPattern::rerun_if` (src/build.rs lines 218-246).  `is_debug`
models the `is_debug()` probe of the build profile; the returned list holds the
`cargo:` lines in print order.  In the `Lazy` arm, `if is_debug() { return; }`
exits the whole method, so nothing at all is printed in a debug profile. -/
def BuildPattern.rerun_if (p : BuildPattern) (is_debug : Bool)
    (other_keys : List BuildTimingConst) (out_dir : String) : List Trigger :=
  match p with
  | BuildPattern.Lazy =>
      if is_debug then [] else rerunIfTail other_keys out_dir
  | BuildPattern.RealTime => rerunIfTail other_keys out_dir
  | BuildPattern.Custom if_path_changed if_env_changed =>
      if_env_changed.map Trigger.rerunIfEnvChanged ++
        if_path_changed.map Trigger.rerunIfChanged ++
        rerunIfTail other_keys out_dir

/-- One `build-timing` build-process error (`BuildTimingError` in src/err.rs):
a single variant `String(String)` carrying a human-readable message.  The
variant is spelled `string` here because `String` would shadow the Lean type. -/
inductive BuildTimingError where
  | string (s : String)
deriving DecidableEq, Repr

/-- Constructor `BuildTimingError::new(err: impl Error)` (src/err.rs): wraps
`err.to_string()`.  The underlying error is represented by its `to_string`
output, the only thing the code reads from it. -/
def BuildTimingError.new (errToString : String) : BuildTimingError :=
  BuildTimingError.string errToString

/-- External error type `std::string::FromUtf8Error`, represented by its
`to_string` output (the only part src/err.rs uses). -/
structure FromUtf8Error where
  message : String

/-- External error type `std::io::Error`, represented by its `to_string` output. -/
structure IoError where
  message : String

/-- External error type `std::env::VarError`, represented by its `to_string` output. -/
structure VarError where
  message : String

/-- External error type `std::num::ParseIntError`, represented by its `to_string`
output. -/
structure ParseIntError where
  message : String

/-- Impl `From<FromUtf8Error> for BuildTimingError` (src/err.rs): wraps `e.to_string()`. -/
def BuildTimingError.fromUtf8 (e : FromUtf8Error) : BuildTimingError :=
  BuildTimingError.string e.message

/-- Impl `From<std::io::Error> for BuildTimingError` (src/err.rs): wraps `e.to_string()`. -/
def BuildTimingError.fromIo (e : IoError) : BuildTimingError :=
  BuildTimingError.string e.message

/-- Impl `From<String> for BuildTimingError` (src/err.rs): wraps the string itself. -/
def BuildTimingError.fromString (e : String) : BuildTimingError :=
  BuildTimingError.string e

/-- Impl `From<&str> for BuildTimingError` (src/err.rs): wraps `e.to_string()`. -/
def BuildTimingError.fromStr (e : String) : BuildTimingError :=
  BuildTimingError.string e

/-- Impl `From<std::env::VarError> for BuildTimingError` (src/err.rs): wraps
`e.to_string()`. -/
def BuildTimingError.fromVarError (e : VarError) : BuildTimingError :=
  BuildTimingError.string e.message

/-- Impl `From<std::num::ParseIntError> for BuildTimingError` (src/err.rs): wraps
`e.to_string()`. -/
def BuildTimingError.fromParseIntError (e : ParseIntError) : BuildTimingError :=
  BuildTimingError.string e.message

/-- Impl `Display for BuildTimingError` (src/err.rs lines 59-65): writes the wrapped
message string. -/
def BuildTimingError.display : BuildTimingError → String
  | BuildTimingError.string err => err

/-- One registered constant hook, a `Box<dyn BuildConstVal>` in src/build.rs.
A `dyn BuildConstVal` is used through exactly two methods: `to_string()` (the
identifier, field `id` here) and `build_val()` (field `val`; `Except.error`
models a `panic!` in the hook). -/
structure Hook where
  id : String
  val : Except String ConstVal

/-- Function `default_allow()` (src/build.rs lines 16-18):
`BTreeSet::from([BUILD_OS])`.  The `BTreeSet` of identifiers is modelled as the
list of its elements in order; a one-element set is the one-element list. -/
def default_allow : List BuildTimingConst := [BUILD_OS]

/-- Builder for a `BuildTiming` instance (`BuildTimingBuilder` in src/build.rs
lines 33-38). -/
structure BuildTimingBuilder where
  build_pattern : BuildPattern
  allow_const : List BuildTimingConst
  out_path : Option String
  hook_consts : List Hook

/-- Constructor `BuildTimingBuilder::builder()` (src/build.rs lines 53-61).
`out_dir_env` models `std::env::var("OUT_DIR").ok()`. -/
def BuildTimingBuilder.builder (out_dir_env : Option String) : BuildTimingBuilder :=
  { build_pattern := BuildPattern.default
    allow_const := default_allow
    out_path := out_dir_env
    hook_consts := [] }

/-- Method `BuildTimingBuilder::get_out_path` (src/build.rs lines 68-71):
`self.out_path.as_ref().ok_or("missing `out_path`")?`, the `?` converting the
`&str` through `From<&str> for BuildTimingError`. -/
def BuildTimingBuilder.get_out_path (b : BuildTimingBuilder) :
    Except BuildTimingError String :=
  match b.out_path with
  | none => Except.error (BuildTimingError.fromStr "missing `out_path`")
  | some p => Except.ok p

/-- Method `BuildTimingBuilder::add_const_hook` (src/build.rs lines 114-117):
`self.hook_consts.push(hook); self`. -/
def BuildTimingBuilder.add_const_hook (b : BuildTimingBuilder) (hook : Hook) :
    BuildTimingBuilder :=
  { b with hook_consts := b.hook_consts ++ [hook] }

/-- Repeated application of `add_const_hook`, one call per element of `hooks`
in order, as a caller chaining the builder API would do. -/
def BuildTimingBuilder.addConstHooks (b : BuildTimingBuilder) (hooks : List Hook) :
    BuildTimingBuilder :=
  hooks.foldl BuildTimingBuilder.add_const_hook b

/-- External `time::OffsetDateTime` value (src/date_time.rs).  Its contents never
matter to the claims; only which value flows where. -/
structure OffsetDateTime where
  stamp : Int
deriving DecidableEq, Repr

/-- Enum `DateTime` of src/date_time.rs: a local- or UTC-offset timestamp. -/
inductive DateTime where
  | Local (dt : OffsetDateTime)
  | Utc (dt : OffsetDateTime)
deriving DecidableEq, Repr

/-- Method `DateTime::now()` (src/date_time.rs line 35-37):
`Self::local_now().unwrap_or_else(|_| DateTime::Utc(OffsetDateTime::now_utc()))`.
`localNow` models the outcome of the fallible `local_now()` call and `nowUtc`
the value of `OffsetDateTime::now_utc()`. -/
def DateTime.now (localNow : Except String DateTime) (nowUtc : OffsetDateTime) :
    DateTime :=
  match localNow with
  | Except.ok dt => dt
  | Except.error _ => DateTime.Utc nowUtc

/-- Method `DateTime::to_rfc2822` (src/date_time.rs lines 39-43):
`dt.format(&Rfc2822).unwrap_or_default()`.  `format` models the external
fallible `time` formatter; `String::default()` is the empty string. -/
def DateTime.to_rfc2822 (format : OffsetDateTime → Except String String) :
    DateTime → String
  | DateTime.Local dt => match format dt with
      | Except.ok s => s
      | Except.error _ => ""
  | DateTime.Utc dt => match format dt with
      | Except.ok s => s
      | Except.error _ => ""

/-- Comparison of two characters by code point, modelling Rust byte comparison of
`char` data inside `str::cmp` (on valid UTF-8, byte order and code-point order
coincide). -/
def charCmp (a b : Char) : Ordering :=
  if a.val.toNat < b.val.toNat then Ordering.lt
  else if b.val.toNat < a.val.toNat then Ordering.gt
  else Ordering.eq

/-- Lexicographic comparison of two character sequences, head first.  This models
`str::cmp` (src/env.rs line 45 delegates `Ord for BuildTimingConst` to it). -/
def lexCmp : List Char → List Char → Ordering
  | [], [] => Ordering.eq
  | [], _ :: _ => Ordering.lt
  | _ :: _, [] => Ordering.gt
  | a :: as, b :: bs =>
    match charCmp a b with
    | Ordering.lt => Ordering.lt
    | Ordering.gt => Ordering.gt
    | Ordering.eq => lexCmp as bs

/-- Derived `PartialEq for BuildTimingConst` (src/env.rs line 16): compares the
single wrapped-name field. -/
def BuildTimingConst.beq (a b : BuildTimingConst) : Bool := a.name == b.name

/-- Manual `Ord for BuildTimingConst` (src/env.rs lines 43-48):
`self.0.cmp(other.0)`, the lexicographic comparison of the names. -/
def BuildTimingConst.ordCmp (a b : BuildTimingConst) : Ordering :=
  lexCmp a.name.data b.name.data

/-- Derived `PartialOrd for BuildTimingConst` (src/env.rs line 16): delegates to
`str::partial_cmp` on the single field, which is `Some(str::cmp)`. -/
def BuildTimingConst.partialCmp (a b : BuildTimingConst) : Option Ordering :=
  some (lexCmp a.name.data b.name.data)

theorem charCmp_self (a : Char) : charCmp a a = Ordering.eq := by
  simp [charCmp]

theorem charCmp_eq_eq_iff (a b : Char) : charCmp a b = Ordering.eq ↔ a = b := by
  constructor
  · intro h
    unfold charCmp at h
    split at h
    · cases h
    · split at h
      · cases h
      · exact Char.ext (UInt32.toNat.inj (by omega))
  · intro h
    subst h
    exact charCmp_self a

theorem charCmp_lt_iff (a b : Char) :
    charCmp a b = Ordering.lt ↔ a.val.toNat < b.val.toNat := by
  unfold charCmp
  rcases Nat.lt_trichotomy a.val.toNat b.val.toNat with h | h | h
  · simp [h]
  · simp [h, Nat.lt_irrefl]
  · simp [h, Nat.lt_asymm h]

theorem charCmp_swap (a b : Char) : (charCmp a b).swap = charCmp b a := by
  unfold charCmp
  rcases Nat.lt_trichotomy a.val.toNat b.val.toNat with h | h | h
  · simp [h, Nat.lt_asymm h, Ordering.swap]
  · simp [h, Nat.lt_irrefl, Ordering.swap]
  · simp [h, Nat.lt_asymm h, Ordering.swap]

theorem charCmp_trans (a b c : Char) (h₁ : charCmp a b = Ordering.lt)
    (h₂ : charCmp b c = Ordering.lt) : charCmp a c = Ordering.lt := by
  rw [charCmp_lt_iff] at h₁ h₂ ⊢
  omega

theorem lexCmp_self (l : List Char) : lexCmp l l = Ordering.eq := by
  induction l with
  | nil => rfl
  | cons a as ih => simp [lexCmp, charCmp_self, ih]

theorem lexCmp_eq_eq_iff (l₁ : List Char) :
    ∀ l₂, lexCmp l₁ l₂ = Ordering.eq ↔ l₁ = l₂ := by
  induction l₁ with
  | nil => intro l₂; cases l₂ <;> simp [lexCmp]
  | cons a as ih =>
    intro l₂
    cases l₂ with
    | nil => simp [lexCmp]
    | cons b bs =>
      simp only [lexCmp]
      cases hab : charCmp a b with
      | lt =>
        constructor
        · intro hc; cases hc
        · intro hl
          injection hl with h1 h2
          subst h1
          rw [charCmp_self] at hab
          cases hab
      | gt =>
        constructor
        · intro hc; cases hc
        · intro hl
          injection hl with h1 h2
          subst h1
          rw [charCmp_self] at hab
          cases hab
      | eq =>
        have hb : a = b := (charCmp_eq_eq_iff a b).mp hab
        subst hb
        simp [ih bs]

theorem lexCmp_swap (l₁ : List Char) :
    ∀ l₂, (lexCmp l₁ l₂).swap = lexCmp l₂ l₁ := by
  induction l₁ with
  | nil => intro l₂; cases l₂ <;> rfl
  | cons a as ih =>
    intro l₂
    cases l₂ with
    | nil => rfl
    | cons b bs =>
      simp only [lexCmp]
      have hba : charCmp b a = (charCmp a b).swap := (charCmp_swap a b).symm
      cases hab : charCmp a b with
      | lt => rw [hab] at hba; rw [hba]; rfl
      | gt => rw [hab] at hba; rw [hba]; rfl
      | eq =>
        rw [hab] at hba
        rw [hba]
        exact ih bs

theorem lexCmp_trans (l₁ : List Char) :
    ∀ l₂ l₃, lexCmp l₁ l₂ = Ordering.lt → lexCmp l₂ l₃ = Ordering.lt →
      lexCmp l₁ l₃ = Ordering.lt := by
  induction l₁ with
  | nil =>
    intro l₂ l₃ h₁ h₂
    cases l₃ with
    | cons c cs => simp [lexCmp]
    | nil =>
      cases l₂ with
      | nil => simp [lexCmp] at h₁
      | cons b bs => simp [lexCmp] at h₂
  | cons a as ih =>
    intro l₂ l₃ h₁ h₂
    cases l₂ with
    | nil => simp [lexCmp] at h₁
    | cons b bs =>
      cases l₃ with
      | nil => simp [lexCmp] at h₂
      | cons c cs =>
        simp only [lexCmp] at h₁ h₂ ⊢
        cases hab : charCmp a b with
        | gt => simp [hab] at h₁
        | lt =>
          cases hbc : charCmp b c with
          | gt => simp [hbc] at h₂
          | lt => rw [charCmp_trans a b c hab hbc]
          | eq =>
            have hb : b = c := (charCmp_eq_eq_iff b c).mp hbc
            subst hb
            rw [hab]
        | eq =>
          have hb : a = b := (charCmp_eq_eq_iff a b).mp hab
          subst hb
          simp only [hab] at h₁
          cases hbc : charCmp a c with
          | gt => simp [hbc] at h₂
          | lt => rfl
          | eq =>
            simp only [hbc] at h₂
            exact ih bs cs h₁ h₂

/-- C1 (counterexample): the claim says that under the Lazy pattern in a
debug profile `rerun_if` emits exactly the unconditional triggers.  In fact
the `if is_debug() { return; }` in the Lazy arm exits `rerun_if` before the
unconditional triggers are printed: at extra identifiers `[BUILD_OS]` and
output directory `"out"` the emitted sequence is empty, while the
unconditional trigger set the claim requires is not. -/
theorem claim_C1_counterexample :
    BuildPattern.rerun_if BuildPattern.Lazy true [BUILD_OS] "out" = [] ∧
      rerunIfTail [BUILD_OS] "out" ≠ [] := by
  constructor
  · rfl
  · decide

/-- C1 (amended): under the Lazy pattern, `rerun_if` in a debug profile emits
no triggers at all (the early return skips even the unconditional ones); in a
non-debug profile it emits exactly the unconditional triggers — one
`rerun-if-env-changed` per caller-supplied extra identifier, one for
`SOURCE_DATE_EPOCH`, and one `rerun-if-changed` for the generated output file —
and no Custom- or RealTime-specific triggers. -/
theorem claim_C1 (dbg : Bool) (keys : List BuildTimingConst) (out : String) :
    BuildPattern.rerun_if BuildPattern.Lazy dbg keys out =
      if dbg then []
      else
        keys.map (fun k => Trigger.rerunIfEnvChanged k.toStr) ++
          [Trigger.rerunIfEnvChanged DEFINE_SOURCE_DATE_EPOCH,
           Trigger.rerunIfChanged (out ++ "/" ++ DEFINE_BUILD_TIMING_RS)] := by
  cases dbg <;> rfl

/-- C2 (counterexample): the claim says registering two hooks with the same
identifier leaves exactly one hook under that identifier.  In fact
`add_const_hook` only pushes onto the `hook_consts` vector: after registering
two hooks both named `X`, the builder's hook collection holds two hooks and
both carry the identifier `X`. -/
theorem claim_C2_counterexample :
    ((BuildTimingBuilder.builder none).addConstHooks
        [⟨"X", Except.ok (ConstVal.new "first")⟩,
         ⟨"X", Except.ok (ConstVal.new "second")⟩]).hook_consts.map Hook.id =
      ["X", "X"] := by
  rfl

/-- C2 (amended): every registration appends its hook to the end of the
builder's hook collection — the collection is the prior hooks followed by the
newly registered ones in registration order, so duplicate identifiers are all
retained (no de-duplication happens at registration). -/
theorem claim_C2 (b : BuildTimingBuilder) (hooks : List Hook) :
    (b.addConstHooks hooks).hook_consts = b.hook_consts ++ hooks := by
  induction hooks generalizing b with
  | nil => simp [BuildTimingBuilder.addConstHooks]
  | cons h hs ih =>
    simp [BuildTimingBuilder.addConstHooks, List.foldl_cons] at ih ⊢
    rw [ih (b.add_const_hook h)]
    simp [BuildTimingBuilder.add_const_hook]

/-- C3: when the build profile is not a debug profile, the Lazy pattern's
`rerun_if` emits exactly the same sequence of trigger declarations as the
RealTime pattern's `rerun_if` on the same extra identifiers and output
directory. -/
theorem claim_C3 (keys : List BuildTimingConst) (out : String) :
    BuildPattern.rerun_if BuildPattern.Lazy false keys out =
      BuildPattern.rerun_if BuildPattern.RealTime false keys out := by
  rfl

/-- C4: the Custom pattern with path list `["src/a.rs"]` and variable list
`["MY_VAR"]` emits exactly one variable-change trigger for `MY_VAR` and one
path-change trigger for `src/a.rs`, followed by the unconditional trigger set,
and nothing else, for every debug flag, extra-identifier list and output
directory. -/
theorem claim_C4 (dbg : Bool) (keys : List BuildTimingConst) (out : String) :
    BuildPattern.rerun_if (BuildPattern.Custom ["src/a.rs"] ["MY_VAR"]) dbg keys out =
      Trigger.rerunIfEnvChanged "MY_VAR" :: Trigger.rerunIfChanged "src/a.rs" ::
        rerunIfTail keys out := by
  rfl

/-- C5: `build_val` on any identifier other than `BUILD_OS` hits the
`panic!("Unknown build constant: ...")` arm (modelled as `Except.error` carrying
the panic message, which names the unknown constant); on `BUILD_OS` it returns
normally. -/
theorem claim_C5 (c : BuildTimingConst) (os arch : String) :
    (c ≠ BUILD_OS →
      c.build_val os arch = Except.error ("Unknown build constant: " ++ c.name)) ∧
      (∃ v, BUILD_OS.build_val os arch = Except.ok v) := by
  constructor
  · intro h
    simp [BuildTimingConst.build_val, h, BuildTimingConst.toStr]
  · exact ⟨{ desc := BUILD_OS_DOC, v := os ++ "-" ++ arch, t := ConstType.Str },
      by simp [BuildTimingConst.build_val]⟩

/-- C5 (witness): the identifier `FOO` differs from `BUILD_OS` and `build_val`
on it yields the panic message naming it. -/
theorem claim_C5_witness :
    BuildTimingConst.build_val ⟨"FOO"⟩ "linux" "x86_64" =
      Except.error "Unknown build constant: FOO" := by
  have h := (claim_C5 ⟨"FOO"⟩ "linux" "x86_64").1 (by decide)
  simpa using h

/-- C6: `get_out_path` returns an error exactly when no output path is
configured (`out_path` is `none`), and when a path is configured it returns
that path unchanged.  The builder itself is untouched: in the source the method
takes `&self`, and here it is a pure function of the builder. -/
theorem claim_C6 (b : BuildTimingBuilder) :
    ((∃ e, b.get_out_path = Except.error e) ↔ b.out_path = none) ∧
      (∀ p, b.out_path = some p → b.get_out_path = Except.ok p) := by
  cases h : b.out_path with
  | none =>
    refine ⟨⟨fun _ => rfl, fun _ => ⟨BuildTimingError.string "missing `out_path`", ?_⟩⟩,
      fun p hp => by cases hp⟩
    simp [BuildTimingBuilder.get_out_path, h, BuildTimingError.fromStr]
  | some p =>
    constructor
    · constructor
      · rintro ⟨e, he⟩
        simp [BuildTimingBuilder.get_out_path, h] at he
      · intro hn
        cases hn
    · intro q hq
      cases hq
      simp [BuildTimingBuilder.get_out_path, h]

/-- C6 (witness): a builder constructed with `OUT_DIR` resolved to `od` has a
configured output path and `get_out_path` returns it. -/
theorem claim_C6_witness :
    (BuildTimingBuilder.builder (some "od")).get_out_path = Except.ok "od" :=
  (claim_C6 (BuildTimingBuilder.builder (some "od"))).2 "od" rfl

/-- C7: a freshly constructed builder's allowed-constant set is exactly the
singleton containing `BUILD_OS`, and resolving `BUILD_OS` yields a `ConstVal`
of kind `Str` whose serialized value is the host OS string and architecture
string joined by a hyphen. -/
theorem claim_C7 (out_env : Option String) (os arch : String) :
    (BuildTimingBuilder.builder out_env).allow_const = [BUILD_OS] ∧
      BUILD_OS.build_val os arch =
        Except.ok { desc := BUILD_OS_DOC, v := os ++ "-" ++ arch, t := ConstType.Str } := by
  exact ⟨rfl, by simp [BuildTimingConst.build_val]⟩

/-- C8: equality and ordering of `BuildTimingConst` identifiers are determined
solely by the name string — `beq` holds exactly on equal names; `ordCmp` is the
lexicographic comparison of the names; it is reflexive, yields `eq` exactly on
equal identifiers, is antisymmetric in the sense that swapping the arguments
swaps the outcome, and is transitive; and the derived `partialCmp` always
agrees with the manual `ordCmp`. -/
theorem claim_C8 (a b c : BuildTimingConst) :
    (a.beq b = true ↔ a.name = b.name) ∧
      a.ordCmp b = lexCmp a.name.data b.name.data ∧
      a.ordCmp a = Ordering.eq ∧
      (a.ordCmp b = Ordering.eq ↔ a = b) ∧
      (a.ordCmp b).swap = b.ordCmp a ∧
      (a.ordCmp b = Ordering.lt → b.ordCmp c = Ordering.lt →
        a.ordCmp c = Ordering.lt) ∧
      a.partialCmp b = some (a.ordCmp b) := by
  refine ⟨?_, rfl, lexCmp_self _, ?_, lexCmp_swap _ _, lexCmp_trans _ _ _, rfl⟩
  · simp [BuildTimingConst.beq]
  · rw [BuildTimingConst.ordCmp, lexCmp_eq_eq_iff]
    constructor
    · intro h
      have hn : a.name = b.name := String.ext h
      cases a
      cases b
      simp only at hn
      rw [hn]
    · intro h
      rw [h]

/-- C8 (witness): concrete identifiers `A`, `B`, `C` compare as the claim
states; in particular transitivity at these inputs gives `A` before `C`. -/
theorem claim_C8_witness :
    BuildTimingConst.ordCmp ⟨"A"⟩ ⟨"C"⟩ = Ordering.lt :=
  (claim_C8 ⟨"A"⟩ ⟨"B"⟩ ⟨"C"⟩).2.2.2.2.2.1 (by decide) (by decide)

/-- C9: every `BuildTimingError` is the single `string` variant carrying a
message, and every conversion into it preserves the source's message: `Display`
of the wrapped value is exactly the original string, and each `From` impl
(io, UTF-8, env-var, parse-int) wraps the underlying error's own message
unchanged. -/
theorem claim_C9 (err : BuildTimingError) (s : String) (eu : FromUtf8Error)
    (ei : IoError) (ev : VarError) (ep : ParseIntError) :
    (∃ m, err = BuildTimingError.string m) ∧
      (BuildTimingError.fromString s).display = s ∧
      (BuildTimingError.fromStr s).display = s ∧
      (BuildTimingError.fromUtf8 eu).display = eu.message ∧
      (BuildTimingError.fromIo ei).display = ei.message ∧
      (BuildTimingError.fromVarError ev).display = ev.message ∧
      (BuildTimingError.fromParseIntError ep).display = ep.message := by
  refine ⟨?_, rfl, rfl, rfl, rfl, rfl, rfl⟩
  cases err with
  | string m => exact ⟨m, rfl⟩

/-- C10: `DateTime::now` is total — it returns the local time when the
local-timezone lookup succeeds and falls back to the UTC clock whenever it
fails — and `to_rfc2822` never fails: on a formatting error it returns the
empty string, and on success the formatted string. -/
theorem claim_C10 (localNow : Except String DateTime) (u : OffsetDateTime)
    (format : OffsetDateTime → Except String String) (d : OffsetDateTime) :
    (∀ e, localNow = Except.error e → DateTime.now localNow u = DateTime.Utc u) ∧
      (∀ dt, localNow = Except.ok dt → DateTime.now localNow u = dt) ∧
      (∀ e, format d = Except.error e →
        DateTime.to_rfc2822 format (DateTime.Local d) = "" ∧
          DateTime.to_rfc2822 format (DateTime.Utc d) = "") ∧
      (∀ s, format d = Except.ok s →
        DateTime.to_rfc2822 format (DateTime.Local d) = s ∧
          DateTime.to_rfc2822 format (DateTime.Utc d) = s) := by
  refine ⟨fun e he => ?_, fun dt hdt => ?_, fun e he => ?_, fun s hs => ?_⟩
  · rw [he]; rfl
  · rw [hdt]; rfl
  · constructor <;> simp [DateTime.to_rfc2822, he]
  · constructor <;> simp [DateTime.to_rfc2822, hs]

/-- C10 (witness): with a failing local-timezone lookup the current time is the
UTC fallback, and with a failing formatter `to_rfc2822` is the empty string. -/
theorem claim_C10_witness :
    DateTime.now (Except.error "no tz") ⟨0⟩ = DateTime.Utc ⟨0⟩ ∧
      DateTime.to_rfc2822 (fun _ => Except.error "fmt") (DateTime.Local ⟨0⟩) = "" := by
  have h := claim_C10 (Except.error "no tz") ⟨0⟩ (fun _ => Except.error "fmt") ⟨0⟩
  exact ⟨h.1 "no tz" rfl, (h.2.2.1 "fmt" rfl).1⟩

end BuildTiming

